import Mathlib

/-!
# Greenhouse monitoring: the control loop of `IoT-based-Greenhouse-Monitoring-System.cpp`

A shallow embedding of the sensor and actuator classes, of `controlEnvironment`
and of the cycle loop of `main`, followed by the properties of the control loop.

Conventions of the embedding.

* A C++ `double` is only stored and compared by this program. The only writes to
  `Sensor::value` are the constructor's `0.0` and the `int` expressions of the
  three `readData` overrides, so a reading is modelled as a rational number.
  Every finite `double` is a rational, the conversion `int -> double` of a
  32-bit `int` is exact, and the comparison of two finite doubles is the
  comparison of the rationals they denote.
* A C++ `int` is an `Int`. No arithmetic of the modelled code can leave the
  32-bit range (`hour < 24`, `minute < 70`, `30 + rand() % 40 < 70`).
* `%` on `int` truncates towards zero: `Int.tmod`.
* `std::string` is `String`, `+=` and `+` are `++`.
* `std::vector<T>` is `List T`; `v[i]` on an index that is out of range is
  undefined behaviour and makes the modelled function return `none`.
* The state of the C library generator behind `rand()` is the sequence of the
  results it is going to return together with the number of calls made so far.
* `this_thread::sleep_for` only delays and is left out.
-/

namespace Greenhouse

/-! ## Data model -/

/-- The struct `Settings` (lines 19-22). -/
structure Settings where
  minTemp : Int
  maxTemp : Int
  minHumidity : Int
  maxHumidity : Int
  deriving DecidableEq, Repr

/-- The struct `EventLog` (lines 24-30). -/
structure EventLog where
  time : String
  temperature : ℚ
  humidity : ℚ
  soilMoisture : ℚ
  actions : String
  deriving DecidableEq, Repr

/-- The three subclasses of `Sensor` (lines 45-67); the tag stands for the vtable. -/
inductive SensorKind where
  | TemperatureSensor
  | HumiditySensor
  | SoilMoistureSensor
  deriving DecidableEq, Repr

/-- The class `Sensor` (lines 33-43): the fields `name` and `value`, and the dynamic type. -/
structure Sensor where
  kind : SensorKind
  name : String
  value : ℚ
  deriving DecidableEq, Repr

/-- The three subclasses of `Actuator` (lines 80-102). -/
inductive ActuatorKind where
  | Fan
  | Sprinkler
  | Pump
  deriving DecidableEq, Repr

/-- The class `Actuator` (lines 70-78): the field `name`, and the dynamic type. -/
structure Actuator where
  kind : ActuatorKind
  name : String
  deriving DecidableEq, Repr

/-- The generator behind `rand()`: `seq i` is the result of the `i`-th call since the
start of the program, `pos` the number of calls made so far. -/
structure Rng where
  seq : Nat → Int
  pos : Nat

/-- One call of `rand()`: the result and the generator after the call. -/
def rand (g : Rng) : Int × Rng :=
  (g.seq g.pos, { g with pos := g.pos + 1 })

/-! ## Sensors -/

/-- The constructor `TemperatureSensor()`: `Sensor("Temperature")`, `value(0.0)`. -/
def TemperatureSensor : Sensor :=
  { kind := .TemperatureSensor, name := "Temperature", value := 0 }

/-- The constructor `HumiditySensor()`. -/
def HumiditySensor : Sensor :=
  { kind := .HumiditySensor, name := "Humidity", value := 0 }

/-- The constructor `SoilMoistureSensor()`. -/
def SoilMoistureSensor : Sensor :=
  { kind := .SoilMoistureSensor, name := "Soil Moisture", value := 0 }

/-- The virtual `readData` (lines 48-50, 56-58, 64-66), given the result `r` of its
call of `rand()`. -/
def Sensor.readData (s : Sensor) (r : Int) : Sensor :=
  match s.kind with
  | .TemperatureSensor => { s with value := ((20 + r.tmod 15 : Int) : ℚ) }
  | .HumiditySensor => { s with value := ((40 + r.tmod 30 : Int) : ℚ) }
  | .SoilMoistureSensor => { s with value := ((30 + r.tmod 40 : Int) : ℚ) }

/-- The accessor `getValue` (line 41). -/
def Sensor.getValue (s : Sensor) : ℚ := s.value

/-- The accessor `getName` (line 42). -/
def Sensor.getName (s : Sensor) : String := s.name

/-! ## Actuators -/

/-- The constructor `Fan()`. -/
def Fan : Actuator := { kind := .Fan, name := "Fan" }

/-- The constructor `Sprinkler()`. -/
def Sprinkler : Actuator := { kind := .Sprinkler, name := "Sprinkler" }

/-- The constructor `Pump()`. -/
def Pump : Actuator := { kind := .Pump, name := "Pump" }

/-- The virtual `activate(string& log)` (lines 83-85, 91-93, 99-101): the log after
the call. -/
def Actuator.activate (a : Actuator) (log : String) : String :=
  match a.kind with
  | .Fan => log ++ "Fan activated; "
  | .Sprinkler => log ++ "Sprinkler activated; "
  | .Pump => log ++ "Pump activated for irrigation; "

/-! ## The control loop -/

/-- The by-reference parameters of `controlEnvironment` and the generator. -/
structure State where
  sensors : List Sensor
  actuators : List Actuator
  settings : Settings
  eventLogs : List EventLog
  rng : Rng

/-- The loop `for (auto& sensor : sensors) sensor->readData();` (lines 156-158). -/
def readAll : List Sensor → Rng → List Sensor × Rng
  | [], g => ([], g)
  | s :: rest, g =>
    let r := rand g
    let out := readAll rest r.2
    (s.readData r.1 :: out.1, out.2)

/-- The call `actuators[i]->activate(actions)`. -/
def activateAt (actuators : List Actuator) (i : Nat) (actions : String) : Option String :=
  (actuators[i]?).map (fun a => a.activate actions)

/-- The threshold rules of `controlEnvironment` (lines 163-179): the string `actions`
at line 186, from the three readings. -/
def tickActions (actuators : List Actuator) (settings : Settings)
    (temp humidity moisture : ℚ) : Option String := do
  let actions : String := ""
  let actions ←
    if temp < (settings.minTemp : ℚ) then activateAt actuators 0 actions
    else if temp > (settings.maxTemp : ℚ) then activateAt actuators 0 actions
    else some actions
  let actions ←
    if humidity < (settings.minHumidity : ℚ) then activateAt actuators 1 actions
    else if humidity > (settings.maxHumidity : ℚ) then activateAt actuators 1 actions
    else some actions
  let actions ←
    if moisture < 30 then activateAt actuators 2 actions
    else some actions
  some actions

/-- The function `std::to_string(int)`: the decimal digits, after a minus sign for a
negative number. -/
def to_string (n : Int) : String :=
  if n < 0 then "-" ++ Nat.repr n.natAbs else Nat.repr n.natAbs

/-- The timestamp of line 182. -/
def timeStamp (hour minute : Int) : String :=
  to_string hour ++ ":" ++ (if minute < 10 then "0" else "") ++ to_string minute

/-- The body of the inner loop of `controlEnvironment` (lines 156-190). -/
def loopBody (hour minute : Int) (st : State) : Option State := do
  let read := readAll st.sensors st.rng
  let sensors := read.1
  let temp ← (sensors[0]?).map Sensor.getValue
  let humidity ← (sensors[1]?).map Sensor.getValue
  let moisture ← (sensors[2]?).map Sensor.getValue
  let actions ← tickActions st.actuators st.settings temp humidity moisture
  let log : EventLog :=
    { time := timeStamp hour minute
      temperature := temp
      humidity := humidity
      soilMoisture := moisture
      actions := actions }
  some { st with sensors := sensors, rng := read.2, eventLogs := st.eventLogs ++ [log] }

/-- The inner loop `for (int minute = 0; minute < 60; minute += 10)` (lines 155-191),
from the current value of `minute`. -/
def minuteLoop (hour minute : Int) (st : State) : Option State :=
  if minute < 60 then
    match loopBody hour minute st with
    | some st1 => minuteLoop hour (minute + 10) st1
    | none => none
  else some st
termination_by (60 - minute).toNat
decreasing_by omega

/-- The outer loop `for (int hour = 0; hour < 24; ++hour)` (lines 154-192), from the
current value of `hour`. -/
def hourLoop (hour : Int) (st : State) : Option State :=
  if hour < 24 then
    match minuteLoop hour 0 st with
    | some st1 => hourLoop (hour + 1) st1
    | none => none
  else some st
termination_by (24 - hour).toNat
decreasing_by omega

/-- The function `controlEnvironment` (lines 153-193). -/
def controlEnvironment (st : State) : Option State :=
  hourLoop 0 st

/-- The vector `sensors` of `main` (line 225). -/
def mainSensors : List Sensor := [TemperatureSensor, HumiditySensor, SoilMoistureSensor]

/-- The vector `actuators` of `main` (line 226). -/
def mainActuators : List Actuator := [Fan, Sprinkler, Pump]

/-- The state of `main` when its cycle loop starts (line 250): the devices of lines
225-226, the settings chosen at lines 238-248, an empty `eventLogs`, the generator
as seeded at line 220. -/
def mainState (settings : Settings) (rng : Rng) : State :=
  { sensors := mainSensors, actuators := mainActuators, settings := settings,
    eventLogs := [], rng := rng }

/-- The first `n` iterations of the cycle loop of `main` (lines 250-258), none of which
takes the `break`: each calls `controlEnvironment`; `getUserChoice` and
`displayEventLog` leave the state alone. -/
def runCycles : Nat → State → Option State
  | 0, st => some st
  | n + 1, st =>
    match controlEnvironment st with
    | some st1 => runCycles n st1
    | none => none

/-! ## Notions used to state the properties -/

/-- A state in which `main` calls `controlEnvironment`: the devices of `main`, the
sensors holding any values, with any settings, history and generator. -/
def cycleState (t h m : ℚ) (settings : Settings) (eventLogs : List EventLog)
    (rng : Rng) : State :=
  { sensors := [{ TemperatureSensor with value := t }, { HumiditySensor with value := h },
      { SoilMoistureSensor with value := m }]
    actuators := mainActuators
    settings := settings
    eventLogs := eventLogs
    rng := rng }

/-- The description of an actuator. Every text that an `activate` adds to the log ends
in the separator made of a semicolon and a blank (lines 84, 92, 100); the description
is the text that `activate` adds to the empty log, without these two characters. -/
def description (a : Actuator) : String :=
  String.mk ((a.activate "").data.dropLast.dropLast)

/-- The string in which the accumulator `actions` holds a sequence of descriptions:
each description followed by the separator made of a semicolon and a blank. -/
def recordOf (descriptions : List String) : String :=
  String.join (descriptions.map (fun d => d ++ "; "))

/-- The rule of an actuator as the specification words it: Fan iff the temperature is
below `minTemp` or above `maxTemp`, Sprinkler iff the humidity is below `minHumidity`
or above `maxHumidity`, Pump iff the soil moisture is below 30. -/
def ruleHolds (settings : Settings) (temp humidity moisture : ℚ) (a : Actuator) : Bool :=
  match a.kind with
  | .Fan => decide (temp < (settings.minTemp : ℚ) ∨ temp > (settings.maxTemp : ℚ))
  | .Sprinkler =>
    decide (humidity < (settings.minHumidity : ℚ) ∨ humidity > (settings.maxHumidity : ℚ))
  | .Pump => decide (moisture < 30)

/-- The number of positions of `s` at which the text `pat` starts. -/
def occurrences (pat s : String) : Nat :=
  s.data.tails.countP (fun t => pat.data.isPrefixOf t)

/-- The two-digit, zero-padded decimal of a number below 100, as the specification
words the minute field. -/
def twoDigit (n : Nat) : String :=
  String.mk [Nat.digitChar (n / 10), Nat.digitChar (n % 10)]

/-- A list of ticks `(hour, minute)` run in order, each by `loopBody`. -/
def runTicks : List (Int × Int) → State → Option State
  | [], st => some st
  | p :: ps, st =>
    match loopBody p.1 p.2 st with
    | some st1 => runTicks ps st1
    | none => none

/-- The ticks of `n` turns of the inner loop, from the current `minute`. -/
def minuteTicks (hour minute : Int) : Nat → List (Int × Int)
  | 0 => []
  | n + 1 => (hour, minute) :: minuteTicks hour (minute + 10) n

/-- The ticks of `n` turns of the outer loop, from the current `hour`. -/
def hourTicks (hour : Int) : Nat → List (Int × Int)
  | 0 => []
  | n + 1 => minuteTicks hour 0 6 ++ hourTicks (hour + 1) n

/-- The entry that a tick appends when the devices are those of `main`, from the
results `r0`, `r1`, `r2` of its three calls of `rand()`. -/
def tickEntry (settings : Settings) (hour minute r0 r1 r2 : Int) : EventLog :=
  { time := timeStamp hour minute
    temperature := ((20 + r0.tmod 15 : Int) : ℚ)
    humidity := ((40 + r1.tmod 30 : Int) : ℚ)
    soilMoisture := ((30 + r2.tmod 40 : Int) : ℚ)
    actions := recordOf (([Fan, Sprinkler, Pump].filter
      (ruleHolds settings ((20 + r0.tmod 15 : Int) : ℚ) ((40 + r1.tmod 30 : Int) : ℚ)
        ((30 + r2.tmod 40 : Int) : ℚ))).map description) }

/-- The entries that a list of ticks appends when the devices are those of `main`,
the generator having made `pos` calls before the first tick. -/
def tickEntries (settings : Settings) (seq : Nat → Int) : Nat → List (Int × Int) → List EventLog
  | _, [] => []
  | pos, p :: ps =>
    tickEntry settings p.1 p.2 (seq pos) (seq (pos + 1)) (seq (pos + 2))
      :: tickEntries settings seq (pos + 3) ps

/-! ## Auxiliary facts -/

theorem activate_eq (a : Actuator) (log : String) :
    a.activate log = log ++ description a ++ "; " := by
  cases a with
  | mk kind name =>
    cases kind <;> simp only [Actuator.activate, description, String.append_assoc] <;>
      congr 1

theorem tickActions_main (settings : Settings) (temp humidity moisture : ℚ) :
    tickActions mainActuators settings temp humidity moisture
      = some (recordOf (([Fan, Sprinkler, Pump].filter
          (ruleHolds settings temp humidity moisture)).map description)) := by
  by_cases h1 : temp < (settings.minTemp : ℚ) <;>
  by_cases h2 : temp > (settings.maxTemp : ℚ) <;>
  by_cases h3 : humidity < (settings.minHumidity : ℚ) <;>
  by_cases h4 : humidity > (settings.maxHumidity : ℚ) <;>
  by_cases h5 : moisture < 30 <;>
  simp [tickActions, activateAt, mainActuators, ruleHolds, Fan, Sprinkler, Pump,
    description, recordOf, Actuator.activate, h1, h2, h3, h4, h5, List.filter, String.join]

theorem loopBody_cycleState (hour minute : Int) (t h m : ℚ) (settings : Settings)
    (eventLogs : List EventLog) (seq : Nat → Int) (pos : Nat) :
    loopBody hour minute (cycleState t h m settings eventLogs ⟨seq, pos⟩)
      = some (cycleState ((20 + (seq pos).tmod 15 : Int) : ℚ)
          ((40 + (seq (pos + 1)).tmod 30 : Int) : ℚ)
          ((30 + (seq (pos + 2)).tmod 40 : Int) : ℚ) settings
          (eventLogs ++ [tickEntry settings hour minute (seq pos) (seq (pos + 1))
            (seq (pos + 2))])
          ⟨seq, pos + 3⟩) := by
  simp only [loopBody, cycleState, readAll, rand, Sensor.readData, TemperatureSensor,
    HumiditySensor, SoilMoistureSensor, Sensor.getValue, tickActions_main, tickEntry,
    List.getElem?_cons_zero, List.getElem?_cons_succ, Option.map_some', Option.bind_eq_bind,
    Option.some_bind, Option.pure_def]

theorem runTicks_append (a b : List (Int × Int)) (st : State) :
    runTicks (a ++ b) st = (runTicks a st).bind (runTicks b) := by
  induction a generalizing st with
  | nil => rfl
  | cons p ps ih =>
    simp only [List.cons_append, runTicks]
    cases loopBody p.1 p.2 st with
    | none => rfl
    | some st1 => exact ih st1

theorem minuteLoop_eq_runTicks (hour : Int) (n : Nat) :
    ∀ (minute : Int) (st : State), 60 ≤ minute + 10 * (n : Int) → minute + 10 * (n : Int) < 70 →
      minuteLoop hour minute st = runTicks (minuteTicks hour minute n) st := by
  induction n with
  | zero =>
    intro minute st h1 _
    rw [minuteLoop, if_neg (by omega)]
    rfl
  | succ n ih =>
    intro minute st h1 h2
    rw [minuteLoop, if_pos (by push_cast at h2; omega)]
    simp only [minuteTicks, runTicks]
    cases loopBody hour minute st with
    | none => rfl
    | some st1 => exact ih (minute + 10) st1 (by push_cast at h1; omega) (by push_cast at h2; omega)

theorem hourLoop_eq_runTicks (n : Nat) :
    ∀ (hour : Int) (st : State), hour + (n : Int) = 24 →
      hourLoop hour st = runTicks (hourTicks hour n) st := by
  induction n with
  | zero =>
    intro hour st h1
    rw [hourLoop, if_neg (by omega)]
    rfl
  | succ n ih =>
    intro hour st h1
    rw [hourLoop, if_pos (by push_cast at h1; omega)]
    rw [hourTicks, runTicks_append, minuteLoop_eq_runTicks hour 6 0 st (by decide) (by decide)]
    cases runTicks (minuteTicks hour 0 6) st with
    | none => rfl
    | some st1 => exact ih (hour + 1) st1 (by push_cast at h1; omega)

theorem controlEnvironment_eq_runTicks (st : State) :
    controlEnvironment st = runTicks (hourTicks 0 24) st :=
  hourLoop_eq_runTicks 24 0 st (by decide)

theorem runTicks_cycleState (settings : Settings) (seq : Nat → Int) (ticks : List (Int × Int)) :
    ∀ (t h m : ℚ) (eventLogs : List EventLog) (pos : Nat),
      ∃ t1 h1 m1 : ℚ, runTicks ticks (cycleState t h m settings eventLogs ⟨seq, pos⟩)
        = some (cycleState t1 h1 m1 settings
            (eventLogs ++ tickEntries settings seq pos ticks)
            ⟨seq, pos + 3 * ticks.length⟩) := by
  induction ticks with
  | nil =>
    intro t h m eventLogs pos
    exact ⟨t, h, m, by simp [runTicks, tickEntries]⟩
  | cons p ps ih =>
    intro t h m eventLogs pos
    obtain ⟨t1, h1, m1, e⟩ := ih ((20 + (seq pos).tmod 15 : Int) : ℚ)
      ((40 + (seq (pos + 1)).tmod 30 : Int) : ℚ) ((30 + (seq (pos + 2)).tmod 40 : Int) : ℚ)
      (eventLogs ++ [tickEntry settings p.1 p.2 (seq pos) (seq (pos + 1)) (seq (pos + 2))])
      (pos + 3)
    refine ⟨t1, h1, m1, ?_⟩
    simp only [runTicks, loopBody_cycleState, e, tickEntries, List.append_assoc,
      List.singleton_append, List.length_cons]
    congr 3
    omega

theorem length_hourTicks : (hourTicks 0 24).length = 144 := by
  simp [hourTicks, minuteTicks]

theorem controlEnvironment_cycleState (t h m : ℚ) (settings : Settings)
    (eventLogs : List EventLog) (seq : Nat → Int) (pos : Nat) :
    ∃ t1 h1 m1 : ℚ, controlEnvironment (cycleState t h m settings eventLogs ⟨seq, pos⟩)
      = some (cycleState t1 h1 m1 settings
          (eventLogs ++ tickEntries settings seq pos (hourTicks 0 24))
          ⟨seq, pos + 432⟩) := by
  obtain ⟨t1, h1, m1, e⟩ := runTicks_cycleState settings seq (hourTicks 0 24) t h m eventLogs pos
  refine ⟨t1, h1, m1, ?_⟩
  rw [controlEnvironment_eq_runTicks, e, length_hourTicks]

theorem length_tickEntries (settings : Settings) (seq : Nat → Int) (ticks : List (Int × Int)) :
    ∀ pos : Nat, (tickEntries settings seq pos ticks).length = ticks.length := by
  induction ticks with
  | nil => intro pos; rfl
  | cons p ps ih => intro pos; simp [tickEntries, ih]

theorem time_tickEntries (settings : Settings) (seq : Nat → Int) (ticks : List (Int × Int)) :
    ∀ pos : Nat, (tickEntries settings seq pos ticks).map EventLog.time
      = ticks.map (fun p => timeStamp p.1 p.2) := by
  induction ticks with
  | nil => intro pos; rfl
  | cons p ps ih => intro pos; simp [tickEntries, ih, tickEntry]

set_option maxRecDepth 100000 in
theorem hourTicks_time (k : Nat) (hk : k < 144) :
    ((hourTicks 0 24).map (fun p => timeStamp p.1 p.2))[k]?
      = some (Nat.repr (k / 6) ++ ":" ++ twoDigit (k % 6 * 10)) := by
  interval_cases k <;> rfl

theorem no_pump_text (settings : Settings) (temp humidity moisture : ℚ)
    (hm : ¬ moisture < 30) :
    ¬ ("Pump activated for irrigation".data <:+: (recordOf (([Fan, Sprinkler, Pump].filter
        (ruleHolds settings temp humidity moisture)).map description)).data) := by
  have hP : ruleHolds settings temp humidity moisture Pump = false := by
    simp [ruleHolds, Pump, hm]
  cases hF : ruleHolds settings temp humidity moisture Fan <;>
  cases hS : ruleHolds settings temp humidity moisture Sprinkler <;>
  simp only [List.filter, hF, hS, hP, List.map] <;> decide

theorem no_fan_text (settings : Settings) (temp humidity moisture : ℚ)
    (h1 : ¬ temp < (settings.minTemp : ℚ)) (h2 : ¬ temp > (settings.maxTemp : ℚ)) :
    ¬ ((description Fan).data <:+: (recordOf (([Fan, Sprinkler, Pump].filter
        (ruleHolds settings temp humidity moisture)).map description)).data) := by
  have hF : ruleHolds settings temp humidity moisture Fan = false := by
    simp [ruleHolds, Fan, h1, h2]
  cases hS : ruleHolds settings temp humidity moisture Sprinkler <;>
  cases hP : ruleHolds settings temp humidity moisture Pump <;>
  simp only [List.filter, hF, hS, hP, List.map] <;> decide

theorem one_fan_text (settings : Settings) (temp humidity moisture : ℚ)
    (hF : ruleHolds settings temp humidity moisture Fan = true) :
    occurrences "Fan activated" (recordOf (([Fan, Sprinkler, Pump].filter
        (ruleHolds settings temp humidity moisture)).map description)) = 1
      ∧ occurrences "Fan activated; " (recordOf (([Fan, Sprinkler, Pump].filter
        (ruleHolds settings temp humidity moisture)).map description)) = 1 := by
  cases hS : ruleHolds settings temp humidity moisture Sprinkler <;>
  cases hP : ruleHolds settings temp humidity moisture Pump <;>
  simp only [List.filter, hF, hS, hP, List.map] <;> decide

theorem one_sprinkler_text (settings : Settings) (temp humidity moisture : ℚ)
    (hS : ruleHolds settings temp humidity moisture Sprinkler = true) :
    occurrences "Sprinkler activated" (recordOf (([Fan, Sprinkler, Pump].filter
        (ruleHolds settings temp humidity moisture)).map description)) = 1
      ∧ occurrences "Sprinkler activated; " (recordOf (([Fan, Sprinkler, Pump].filter
        (ruleHolds settings temp humidity moisture)).map description)) = 1 := by
  cases hF : ruleHolds settings temp humidity moisture Fan <;>
  cases hP : ruleHolds settings temp humidity moisture Pump <;>
  simp only [List.filter, hF, hS, hP, List.map] <;> decide

theorem tmod_range (r : Int) (hr : 0 ≤ r) (n : Int) (hn : 0 < n) :
    0 ≤ r.tmod n ∧ r.tmod n < n := by
  rw [Int.tmod_eq_emod hr (le_of_lt hn)]
  exact ⟨Int.emod_nonneg r (ne_of_gt hn), Int.emod_lt_of_pos r hn⟩

theorem tickEntries_no_pump (settings : Settings) (seq : Nat → Int) (hseq : ∀ i, 0 ≤ seq i)
    (ticks : List (Int × Int)) :
    ∀ (pos : Nat) (e : EventLog), e ∈ tickEntries settings seq pos ticks →
      ¬ ("Pump activated for irrigation".data <:+: e.actions.data) := by
  induction ticks with
  | nil => intro pos e he; simp [tickEntries] at he
  | cons p ps ih =>
    intro pos e he
    simp only [tickEntries, List.mem_cons] at he
    rcases he with he | he
    · subst he
      apply no_pump_text
      have h := (tmod_range (seq (pos + 2)) (hseq _) 40 (by decide)).1
      have h30 : ((30 : Int) : ℚ) ≤ ((30 + (seq (pos + 2)).tmod 40 : Int) : ℚ) :=
        Int.cast_le.mpr (by omega)
      have h30q : ((30 : Int) : ℚ) = 30 := by norm_num
      rw [h30q] at h30
      exact not_lt.mpr h30
    · exact ih (pos + 3) e he

theorem runCycles_succ (n : Nat) :
    ∀ st : State, runCycles (n + 1) st = (runCycles n st).bind controlEnvironment := by
  induction n with
  | zero =>
    intro st
    simp only [runCycles, Option.some_bind]
    cases h : controlEnvironment st <;> rfl
  | succ n ih =>
    intro st
    rw [runCycles]
    cases h : controlEnvironment st with
    | none => simp [runCycles, h]
    | some st1 =>
      simp only []
      rw [ih st1]
      conv_rhs => rw [runCycles, h]

theorem runCycles_cycleState (settings : Settings) (seq : Nat → Int) (n : Nat) :
    ∀ (t h m : ℚ) (eventLogs : List EventLog) (pos : Nat),
      ∃ (t1 h1 m1 : ℚ) (added : List EventLog),
        runCycles n (cycleState t h m settings eventLogs ⟨seq, pos⟩)
          = some (cycleState t1 h1 m1 settings (eventLogs ++ added) ⟨seq, pos + 432 * n⟩)
        ∧ added.length = 144 * n := by
  induction n with
  | zero =>
    intro t h m eventLogs pos
    exact ⟨t, h, m, [], by simp [runCycles], rfl⟩
  | succ n ih =>
    intro t h m eventLogs pos
    obtain ⟨t1, h1, m1, e1⟩ := controlEnvironment_cycleState t h m settings eventLogs seq pos
    obtain ⟨t2, h2, m2, added, e2, hl⟩ := ih t1 h1 m1
      (eventLogs ++ tickEntries settings seq pos (hourTicks 0 24)) (pos + 432)
    refine ⟨t2, h2, m2, tickEntries settings seq pos (hourTicks 0 24) ++ added, ?_, ?_⟩
    · rw [runCycles, e1]
      simp only []
      rw [e2, List.append_assoc]
      congr 3
      omega
    · rw [List.length_append, length_tickEntries, length_hourTicks, hl]
      omega

theorem tickActions_literal (settings : Settings) (temp humidity moisture : ℚ) :
    tickActions mainActuators settings temp humidity moisture
      = some ((if temp < (settings.minTemp : ℚ) ∨ temp > (settings.maxTemp : ℚ)
            then "Fan activated; " else "")
          ++ (if humidity < (settings.minHumidity : ℚ) ∨ humidity > (settings.maxHumidity : ℚ)
            then "Sprinkler activated; " else "")
          ++ (if moisture < 30 then "Pump activated for irrigation; " else "")) := by
  by_cases h1 : temp < (settings.minTemp : ℚ) <;>
  by_cases h2 : temp > (settings.maxTemp : ℚ) <;>
  by_cases h3 : humidity < (settings.minHumidity : ℚ) <;>
  by_cases h4 : humidity > (settings.maxHumidity : ℚ) <;>
  by_cases h5 : moisture < 30 <;>
  simp [tickActions, activateAt, mainActuators, Fan, Sprinkler, Pump,
    Actuator.activate, h1, h2, h3, h4, h5]

theorem description_values :
    description Fan = "Fan activated" ∧ description Sprinkler = "Sprinkler activated"
      ∧ description Pump = "Pump activated for irrigation" := by
  decide

theorem activate_values (log : String) :
    Fan.activate log = log ++ "Fan activated; "
      ∧ Sprinkler.activate log = log ++ "Sprinkler activated; "
      ∧ Pump.activate log = log ++ "Pump activated for irrigation; " :=
  ⟨rfl, rfl, rfl⟩

theorem descriptions_nodup (p : Actuator → Bool) :
    (([Fan, Sprinkler, Pump].filter p).map description).Nodup :=
  List.Nodup.sublist (List.Sublist.map description (List.filter_sublist _)) (by decide)

/-! ## Properties of the control loop -/

/-- C1: for all readings and settings, the actions that a tick records are the
descriptions, in the order Fan, Sprinkler, Pump, of the actuators whose rule holds,
each at most once and each followed by a semicolon and a blank: "Fan activated" iff
the temperature is below `minTemp` or above `maxTemp`, "Sprinkler activated" iff the
humidity is below `minHumidity` or above `maxHumidity`, "Pump activated for
irrigation" iff the soil moisture is below 30. In `loopBody` the readings are the
values that the three sensors have just read from `rand()`, whatever they held
before, and the entry appended carries these readings and their actions. -/
theorem C1_tick_actions (settings : Settings) (temp humidity moisture : ℚ) :
    tickActions mainActuators settings temp humidity moisture
        = some (recordOf (([Fan, Sprinkler, Pump].filter
            (ruleHolds settings temp humidity moisture)).map description))
      ∧ tickActions mainActuators settings temp humidity moisture
        = some ((if temp < (settings.minTemp : ℚ) ∨ temp > (settings.maxTemp : ℚ)
              then "Fan activated; " else "")
            ++ (if humidity < (settings.minHumidity : ℚ)
                ∨ humidity > (settings.maxHumidity : ℚ)
              then "Sprinkler activated; " else "")
            ++ (if moisture < 30 then "Pump activated for irrigation; " else ""))
      ∧ (description Fan = "Fan activated" ∧ description Sprinkler = "Sprinkler activated"
          ∧ description Pump = "Pump activated for irrigation")
      ∧ (∀ log : String, Fan.activate log = log ++ "Fan activated; "
          ∧ Sprinkler.activate log = log ++ "Sprinkler activated; "
          ∧ Pump.activate log = log ++ "Pump activated for irrigation; ")
      ∧ (([Fan, Sprinkler, Pump].filter (ruleHolds settings temp humidity moisture)).map
          description).Nodup
      ∧ (ruleHolds settings temp humidity moisture Fan = true
          ↔ (temp < (settings.minTemp : ℚ) ∨ temp > (settings.maxTemp : ℚ)))
      ∧ (ruleHolds settings temp humidity moisture Sprinkler = true
          ↔ (humidity < (settings.minHumidity : ℚ) ∨ humidity > (settings.maxHumidity : ℚ)))
      ∧ (ruleHolds settings temp humidity moisture Pump = true ↔ moisture < 30)
      ∧ ∀ (hour minute : Int) (t0 h0 m0 : ℚ) (eventLogs : List EventLog) (rng : Rng),
          ∃ (st1 : State) (e : EventLog),
            loopBody hour minute (cycleState t0 h0 m0 settings eventLogs rng) = some st1
            ∧ st1.eventLogs = eventLogs ++ [e]
            ∧ e.temperature = (TemperatureSensor.readData (rng.seq rng.pos)).getValue
            ∧ e.humidity = (HumiditySensor.readData (rng.seq (rng.pos + 1))).getValue
            ∧ e.soilMoisture
                = (SoilMoistureSensor.readData (rng.seq (rng.pos + 2))).getValue
            ∧ tickActions mainActuators settings
                (TemperatureSensor.readData (rng.seq rng.pos)).getValue
                (HumiditySensor.readData (rng.seq (rng.pos + 1))).getValue
                (SoilMoistureSensor.readData (rng.seq (rng.pos + 2))).getValue
                  = some e.actions
            ∧ e.actions = recordOf (([Fan, Sprinkler, Pump].filter
                (ruleHolds settings (TemperatureSensor.readData (rng.seq rng.pos)).getValue
                  (HumiditySensor.readData (rng.seq (rng.pos + 1))).getValue
                  (SoilMoistureSensor.readData (rng.seq (rng.pos + 2))).getValue)).map
                    description) := by
  refine ⟨tickActions_main settings temp humidity moisture,
    tickActions_literal settings temp humidity moisture, description_values,
    activate_values, descriptions_nodup _, by simp [ruleHolds, Fan],
    by simp [ruleHolds, Sprinkler], by simp [ruleHolds, Pump], ?_⟩
  intro hour minute t0 h0 m0 eventLogs rng
  exact ⟨_, _, loopBody_cycleState hour minute t0 h0 m0 settings eventLogs
    rng.seq rng.pos, rfl, rfl, rfl, rfl, tickActions_main _ _ _ _, rfl⟩

/-- C2: from every history, settings, sensor values and generator, one call of
`controlEnvironment` returns and the history it leaves is 144 entries longer. -/
theorem C2_cycle_appends_144 (t h m : ℚ) (settings : Settings) (eventLogs : List EventLog)
    (rng : Rng) :
    ∃ st1 : State, controlEnvironment (cycleState t h m settings eventLogs rng) = some st1
      ∧ st1.eventLogs.length = eventLogs.length + 144 := by
  obtain ⟨t1, h1, m1, e⟩ :=
    controlEnvironment_cycleState t h m settings eventLogs rng.seq rng.pos
  refine ⟨_, e, ?_⟩
  simp [cycleState, length_tickEntries, length_hourTicks]

/-- C3: the history is append-only across cycles: from the empty history of `main`,
`n` consecutive calls of `controlEnvironment` return and leave `144 * n` entries, the
next call keeps that history as a prefix of the one it leaves; and from every state
in which `main` calls it, `controlEnvironment` leaves a history that has the history
before the call as a prefix. -/
theorem C3_history_append_only :
    (∀ (n : Nat) (settings : Settings) (rng : Rng),
      ∃ st1 st2 : State, runCycles n (mainState settings rng) = some st1
        ∧ st1.eventLogs.length = 144 * n
        ∧ controlEnvironment st1 = some st2
        ∧ runCycles (n + 1) (mainState settings rng) = some st2
        ∧ st1.eventLogs <+: st2.eventLogs)
    ∧ (∀ (t h m : ℚ) (settings : Settings) (eventLogs : List EventLog) (rng : Rng),
      ∃ st1 : State, controlEnvironment (cycleState t h m settings eventLogs rng) = some st1
        ∧ eventLogs <+: st1.eventLogs) := by
  constructor
  · intro n settings rng
    obtain ⟨t1, h1, m1, added, e1, hl⟩ :=
      runCycles_cycleState settings rng.seq n 0 0 0 [] rng.pos
    obtain ⟨t2, h2, m2, e2⟩ := controlEnvironment_cycleState t1 h1 m1 settings ([] ++ added)
      rng.seq (rng.pos + 432 * n)
    have e0 : mainState settings rng = cycleState 0 0 0 settings [] ⟨rng.seq, rng.pos⟩ := rfl
    refine ⟨_, _, e0 ▸ e1, ?_, e2, ?_, ?_⟩
    · simpa [cycleState] using hl
    · rw [runCycles_succ, e0, e1]
      exact e2
    · exact ⟨_, rfl⟩
  · intro t h m settings eventLogs rng
    obtain ⟨t1, h1, m1, e⟩ :=
      controlEnvironment_cycleState t h m settings eventLogs rng.seq rng.pos
    exact ⟨_, e, ⟨_, rfl⟩⟩

/-- C4: for every non-negative result `r` of `rand()`, the value that `readData`
stores is in [20, 35) for a temperature sensor, in [40, 70) for a humidity sensor and
in [30, 70) for a soil moisture sensor, whatever value the sensor held before. -/
theorem C4_sensor_ranges (r : Int) (hr : 0 ≤ r) (v : ℚ) :
    (20 ≤ (({ TemperatureSensor with value := v } : Sensor).readData r).getValue
      ∧ (({ TemperatureSensor with value := v } : Sensor).readData r).getValue < 35)
    ∧ (40 ≤ (({ HumiditySensor with value := v } : Sensor).readData r).getValue
      ∧ (({ HumiditySensor with value := v } : Sensor).readData r).getValue < 70)
    ∧ (30 ≤ (({ SoilMoistureSensor with value := v } : Sensor).readData r).getValue
      ∧ (({ SoilMoistureSensor with value := v } : Sensor).readData r).getValue < 70) := by
  have h15 := tmod_range r hr 15 (by decide)
  have h30 := tmod_range r hr 30 (by decide)
  have h40 := tmod_range r hr 40 (by decide)
  simp only [Sensor.readData, Sensor.getValue, TemperatureSensor, HumiditySensor,
    SoilMoistureSensor]
  refine ⟨⟨?_, ?_⟩, ⟨?_, ?_⟩, ⟨?_, ?_⟩⟩
  · exact_mod_cast (show (20 : Int) ≤ 20 + r.tmod 15 by omega)
  · exact_mod_cast (show 20 + r.tmod 15 < (35 : Int) by omega)
  · exact_mod_cast (show (40 : Int) ≤ 40 + r.tmod 30 by omega)
  · exact_mod_cast (show 40 + r.tmod 30 < (70 : Int) by omega)
  · exact_mod_cast (show (30 : Int) ≤ 30 + r.tmod 40 by omega)
  · exact_mod_cast (show 30 + r.tmod 40 < (70 : Int) by omega)

/-- C4, at the result 7 of `rand()` and a sensor that held 0. -/
theorem C4_sensor_ranges_witness :
    (0 : Int) ≤ 7
    ∧ ((20 ≤ (({ TemperatureSensor with value := 0 } : Sensor).readData 7).getValue
      ∧ (({ TemperatureSensor with value := 0 } : Sensor).readData 7).getValue < 35)
    ∧ (40 ≤ (({ HumiditySensor with value := 0 } : Sensor).readData 7).getValue
      ∧ (({ HumiditySensor with value := 0 } : Sensor).readData 7).getValue < 70)
    ∧ (30 ≤ (({ SoilMoistureSensor with value := 0 } : Sensor).readData 7).getValue
      ∧ (({ SoilMoistureSensor with value := 0 } : Sensor).readData 7).getValue < 70)) :=
  ⟨by decide, C4_sensor_ranges 7 (by decide) 0⟩

/-- C5: for every tick index `k < 144`, one call of `controlEnvironment` returns and
the `k`-th entry it appends has the timestamp made of the decimal of `k / 6`, a
colon and the two-digit zero-padded decimal of `(k % 6) * 10`; the hour is below 24,
the minute is one of 0, 10, 20, 30, 40, 50 and the minute field has two characters. -/
theorem C5_timestamps (t h m : ℚ) (settings : Settings) (eventLogs : List EventLog)
    (rng : Rng) (k : Nat) (hk : k < 144) :
    ∃ (st1 : State) (e : EventLog),
      controlEnvironment (cycleState t h m settings eventLogs rng) = some st1
      ∧ st1.eventLogs[eventLogs.length + k]? = some e
      ∧ e.time = Nat.repr (k / 6) ++ ":" ++ twoDigit (k % 6 * 10)
      ∧ k / 6 < 24
      ∧ k % 6 * 10 ∈ [0, 10, 20, 30, 40, 50]
      ∧ (twoDigit (k % 6 * 10)).length = 2 := by
  obtain ⟨t1, h1, m1, e⟩ :=
    controlEnvironment_cycleState t h m settings eventLogs rng.seq rng.pos
  have hlen : k < (tickEntries settings rng.seq rng.pos (hourTicks 0 24)).length := by
    rw [length_tickEntries, length_hourTicks]; exact hk
  have ht := hourTicks_time k hk
  rw [← time_tickEntries settings rng.seq (hourTicks 0 24) rng.pos, List.getElem?_map,
    List.getElem?_eq_getElem hlen, Option.map_some'] at ht
  refine ⟨_, (tickEntries settings rng.seq rng.pos (hourTicks 0 24))[k], e, ?_,
    Option.some.inj ht, by omega, ?_, rfl⟩
  · simp only [cycleState]
    rw [List.getElem?_append_right (Nat.le_add_right _ _), Nat.add_sub_cancel_left,
      List.getElem?_eq_getElem hlen]
  · have h6 : k % 6 < 6 := Nat.mod_lt _ (by decide)
    interval_cases (k % 6) <;> decide

/-- C5, at the tick 7 of the first cycle of a run. -/
theorem C5_timestamps_witness :
    7 < 144
    ∧ ∃ (st1 : State) (e : EventLog),
      controlEnvironment (cycleState 0 0 0 ⟨18, 30, 60, 70⟩ [] ⟨fun _ => 0, 0⟩) = some st1
      ∧ st1.eventLogs[([] : List EventLog).length + 7]? = some e
      ∧ e.time = Nat.repr (7 / 6) ++ ":" ++ twoDigit (7 % 6 * 10)
      ∧ 7 / 6 < 24
      ∧ 7 % 6 * 10 ∈ [0, 10, 20, 30, 40, 50]
      ∧ (twoDigit (7 % 6 * 10)).length = 2 :=
  ⟨by decide, C5_timestamps 0 0 0 ⟨18, 30, 60, 70⟩ [] ⟨fun _ => 0, 0⟩ 7 (by decide)⟩

/-- C6: with the settings 18, 30, 60, 70 and the readings 32, 65, 25 the actions
recorded for the tick are the descriptions "Fan activated" and "Pump activated for
irrigation", in this order, each followed by a semicolon and a blank in the string
`actions`: the description of the Fan followed by the description of the Pump, and
the description of the Sprinkler does not occur. -/
theorem C6_example_actions :
    tickActions mainActuators ⟨18, 30, 60, 70⟩ 32 65 25
        = some (recordOf ["Fan activated", "Pump activated for irrigation"])
      ∧ recordOf ["Fan activated", "Pump activated for irrigation"]
        = "Fan activated; Pump activated for irrigation; "
      ∧ "Fan activated; Pump activated for irrigation; " = Pump.activate (Fan.activate "")
      ∧ ["Fan activated", "Pump activated for irrigation"]
        = [description Fan, description Pump]
      ∧ description Sprinkler = "Sprinkler activated"
      ∧ ¬ ((description Sprinkler).data
            <:+: "Fan activated; Pump activated for irrigation; ".data) := by
  decide

/-- C7: the comparisons are strict. For settings with `minTemp <= maxTemp`, a tick
whose temperature equals `maxTemp`, or equals `minTemp`, records actions in which the
text of the Fan does not occur, whatever the humidity and the soil moisture; and for
all settings and readings with a soil moisture of exactly 30 the text of the Pump
does not occur. -/
theorem C7_strict_thresholds (settings : Settings)
    (hle : settings.minTemp ≤ settings.maxTemp) :
    (∀ humidity moisture : ℚ, ∃ actions : String,
      tickActions mainActuators settings (settings.maxTemp : ℚ) humidity moisture
        = some actions
      ∧ ¬ ((description Fan).data <:+: actions.data))
    ∧ (∀ humidity moisture : ℚ, ∃ actions : String,
      tickActions mainActuators settings (settings.minTemp : ℚ) humidity moisture
        = some actions
      ∧ ¬ ((description Fan).data <:+: actions.data))
    ∧ (∀ (settings1 : Settings) (temp humidity : ℚ), ∃ actions : String,
      tickActions mainActuators settings1 temp humidity 30 = some actions
      ∧ ¬ ((description Pump).data <:+: actions.data)
      ∧ ¬ ("Pump activated for irrigation".data <:+: actions.data)) := by
  have hq : (settings.minTemp : ℚ) ≤ (settings.maxTemp : ℚ) := Int.cast_le.mpr hle
  refine ⟨?_, ?_, ?_⟩
  · intro humidity moisture
    exact ⟨_, tickActions_main _ _ _ _,
      no_fan_text _ _ _ _ (not_lt.mpr hq) (lt_irrefl _)⟩
  · intro humidity moisture
    exact ⟨_, tickActions_main _ _ _ _,
      no_fan_text _ _ _ _ (lt_irrefl _) (not_lt.mpr hq)⟩
  · intro settings1 temp humidity
    have h := no_pump_text settings1 temp humidity 30 (lt_irrefl _)
    refine ⟨_, tickActions_main _ _ _ _, ?_, h⟩
    intro hp
    exact h (List.IsInfix.trans (by decide) hp)

/-- C7, at the settings 18, 30, 60, 70. -/
theorem C7_strict_thresholds_witness :
    (18 : Int) ≤ 30
    ∧ (∀ humidity moisture : ℚ, ∃ actions : String,
      tickActions mainActuators ⟨18, 30, 60, 70⟩ ((30 : Int) : ℚ) humidity moisture
        = some actions
      ∧ ¬ ((description Fan).data <:+: actions.data))
    ∧ (∀ humidity moisture : ℚ, ∃ actions : String,
      tickActions mainActuators ⟨18, 30, 60, 70⟩ ((18 : Int) : ℚ) humidity moisture
        = some actions
      ∧ ¬ ((description Fan).data <:+: actions.data))
    ∧ (∀ (settings1 : Settings) (temp humidity : ℚ), ∃ actions : String,
      tickActions mainActuators settings1 temp humidity 30 = some actions
      ∧ ¬ ((description Pump).data <:+: actions.data)
      ∧ ¬ ("Pump activated for irrigation".data <:+: actions.data)) :=
  ⟨by decide, C7_strict_thresholds ⟨18, 30, 60, 70⟩ (by decide)⟩

/-- C8: `controlEnvironment` does not change the settings: from every state in which
`main` calls it, the call returns and the four fields `minTemp`, `maxTemp`,
`minHumidity`, `maxHumidity` of the state it leaves are those before the call. -/
theorem C8_settings_unchanged (t h m : ℚ) (settings : Settings)
    (eventLogs : List EventLog) (rng : Rng) :
    ∃ st1 : State, controlEnvironment (cycleState t h m settings eventLogs rng) = some st1
      ∧ st1.settings.minTemp = settings.minTemp
      ∧ st1.settings.maxTemp = settings.maxTemp
      ∧ st1.settings.minHumidity = settings.minHumidity
      ∧ st1.settings.maxHumidity = settings.maxHumidity := by
  obtain ⟨t1, h1, m1, e⟩ :=
    controlEnvironment_cycleState t h m settings eventLogs rng.seq rng.pos
  exact ⟨_, e, rfl, rfl, rfl, rfl⟩

/-- C9: when every result of `rand()` is non-negative, a call of `controlEnvironment`
returns, appends 144 entries, and the text "Pump activated for irrigation" occurs in
the actions of none of them. -/
theorem C9_pump_never_activated (t h m : ℚ) (settings : Settings)
    (eventLogs : List EventLog) (rng : Rng) (hrand : ∀ i : Nat, 0 ≤ rng.seq i) :
    ∃ st1 : State, controlEnvironment (cycleState t h m settings eventLogs rng) = some st1
      ∧ (st1.eventLogs.drop eventLogs.length).length = 144
      ∧ ∀ e ∈ st1.eventLogs.drop eventLogs.length,
          ¬ ("Pump activated for irrigation".data <:+: e.actions.data) := by
  obtain ⟨t1, h1, m1, e⟩ :=
    controlEnvironment_cycleState t h m settings eventLogs rng.seq rng.pos
  refine ⟨_, e, ?_, ?_⟩
  · simp [cycleState, length_tickEntries, length_hourTicks]
  · intro e1 he1
    simp only [cycleState, List.drop_left] at he1
    exact tickEntries_no_pump settings rng.seq hrand (hourTicks 0 24) rng.pos e1 he1

/-- C9, at the generator that returns `i % 100` at its `i`-th call. -/
theorem C9_pump_never_activated_witness :
    (∀ i : Nat, 0 ≤ (⟨fun i => (i % 100 : Nat), 0⟩ : Rng).seq i)
    ∧ ∃ st1 : State,
      controlEnvironment (cycleState 0 0 0 ⟨18, 30, 60, 70⟩ []
        ⟨fun i => (i % 100 : Nat), 0⟩) = some st1
      ∧ (st1.eventLogs.drop ([] : List EventLog).length).length = 144
      ∧ ∀ e ∈ st1.eventLogs.drop ([] : List EventLog).length,
          ¬ ("Pump activated for irrigation".data <:+: e.actions.data) :=
  ⟨fun _ => Int.ofNat_nonneg _,
    C9_pump_never_activated 0 0 0 ⟨18, 30, 60, 70⟩ [] ⟨fun i => (i % 100 : Nat), 0⟩
      (fun _ => Int.ofNat_nonneg _)⟩

/-- C10: an inverted range makes the actuator fire at every tick, once. For settings
with `minTemp > maxTemp` and all readings, the description "Fan activated" of the Fan
occurs exactly once in the recorded actions, and so does the whole text "Fan
activated; " that an activation adds; for settings with `minHumidity > maxHumidity`
and all readings, the same holds for "Sprinkler activated" and the Sprinkler. -/
theorem C10_inverted_range (settingsT settingsH : Settings)
    (hT : settingsT.minTemp > settingsT.maxTemp)
    (hH : settingsH.minHumidity > settingsH.maxHumidity) :
    (∀ temp humidity moisture : ℚ, ∃ actions : String,
      tickActions mainActuators settingsT temp humidity moisture = some actions
      ∧ occurrences "Fan activated" actions = 1
      ∧ occurrences "Fan activated; " actions = 1
      ∧ occurrences (description Fan) actions = 1
      ∧ occurrences (Fan.activate "") actions = 1)
    ∧ (∀ temp humidity moisture : ℚ, ∃ actions : String,
      tickActions mainActuators settingsH temp humidity moisture = some actions
      ∧ occurrences "Sprinkler activated" actions = 1
      ∧ occurrences "Sprinkler activated; " actions = 1
      ∧ occurrences (description Sprinkler) actions = 1
      ∧ occurrences (Sprinkler.activate "") actions = 1) := by
  have hTq : (settingsT.maxTemp : ℚ) < (settingsT.minTemp : ℚ) := Int.cast_lt.mpr hT
  have hHq : (settingsH.maxHumidity : ℚ) < (settingsH.minHumidity : ℚ) := Int.cast_lt.mpr hH
  constructor
  · intro temp humidity moisture
    have hF : ruleHolds settingsT temp humidity moisture Fan = true := by
      simp only [ruleHolds, Fan, decide_eq_true_eq]
      rcases lt_or_le temp (settingsT.minTemp : ℚ) with hlt | hge
      · exact Or.inl hlt
      · exact Or.inr (lt_of_lt_of_le hTq hge)
    have h := one_fan_text settingsT temp humidity moisture hF
    exact ⟨_, tickActions_main _ _ _ _, h.1, h.2, h.1, h.2⟩
  · intro temp humidity moisture
    have hS : ruleHolds settingsH temp humidity moisture Sprinkler = true := by
      simp only [ruleHolds, Sprinkler, decide_eq_true_eq]
      rcases lt_or_le humidity (settingsH.minHumidity : ℚ) with hlt | hge
      · exact Or.inl hlt
      · exact Or.inr (lt_of_lt_of_le hHq hge)
    have h := one_sprinkler_text settingsH temp humidity moisture hS
    exact ⟨_, tickActions_main _ _ _ _, h.1, h.2, h.1, h.2⟩

/-- C10, at the settings 30, 18, 60, 70 for the Fan and 18, 30, 70, 60 for the
Sprinkler. -/
theorem C10_inverted_range_witness :
    ((⟨30, 18, 60, 70⟩ : Settings).minTemp > (⟨30, 18, 60, 70⟩ : Settings).maxTemp
      ∧ (⟨18, 30, 70, 60⟩ : Settings).minHumidity > (⟨18, 30, 70, 60⟩ : Settings).maxHumidity)
    ∧ (∀ temp humidity moisture : ℚ, ∃ actions : String,
      tickActions mainActuators ⟨30, 18, 60, 70⟩ temp humidity moisture = some actions
      ∧ occurrences "Fan activated" actions = 1
      ∧ occurrences "Fan activated; " actions = 1
      ∧ occurrences (description Fan) actions = 1
      ∧ occurrences (Fan.activate "") actions = 1)
    ∧ (∀ temp humidity moisture : ℚ, ∃ actions : String,
      tickActions mainActuators ⟨18, 30, 70, 60⟩ temp humidity moisture = some actions
      ∧ occurrences "Sprinkler activated" actions = 1
      ∧ occurrences "Sprinkler activated; " actions = 1
      ∧ occurrences (description Sprinkler) actions = 1
      ∧ occurrences (Sprinkler.activate "") actions = 1) :=
  ⟨⟨by decide, by decide⟩, C10_inverted_range ⟨30, 18, 60, 70⟩ ⟨18, 30, 70, 60⟩
    (by decide) (by decide)⟩

end Greenhouse
